import Mathlib

/-
Verification of the dex-operator reconciliation controller
(src/controllers/dexserver_controller.go) against its specification.

The Go source is shallowly embedded: pure decision logic is translated to
Lean functions; cluster reads (client.Get) become explicit lookup-result
parameters; the eight sync steps of the Reconcile pass become an outcome
record (each step either succeeds or returns an error message).
-/

namespace DexOperator

/-! ## Status conditions (metav1.Condition) and the status merge

The controller merges conditions with mergeStatusConditions
(dexserver_controller.go, lines 948 to 959), which delegates the per-type
merge to meta.SetStatusCondition of k8s.io/apimachinery, a library whose
source is not under src/.  setStatusCondition below is therefore modelled
from the spec. -/

/-- A status condition record: type, boolean status, reason code, human
message and last-transition time (modelled as a bare Nat timestamp). -/
structure Condition where
  type : String
  status : Bool
  reason : String
  message : String
  lastTransitionTime : Nat
deriving DecidableEq

/-- Modelled from the spec: meta.SetStatusCondition (k8s.io/apimachinery,
not under src/).  Spec section 4.5: for each update, find an existing
record with the same type; if found, replace it in place only if status,
reason, or message differs (updating last-transition time), else leave
untouched; if not found, append. -/
def setStatusCondition (conds : List Condition) (c : Condition) : List Condition :=
  match conds with
  | [] => [c]
  | head :: rest =>
    if head.type = c.type then
      if head.status = c.status ∧ head.reason = c.reason ∧ head.message = c.message
      then head :: rest
      else c :: rest
    else head :: setStatusCondition rest c

/-- mergeStatusConditions (lines 948 to 959): copies the existing
conditions and folds each new condition in via the per-type merge. -/
def mergeStatusConditions (conds : List Condition) (newConds : List Condition) : List Condition :=
  newConds.foldl setStatusCondition conds

/-! ## The Reconcile pass (lines 103 to 250)

Reconcile runs eight sync steps strictly in sequence.  Each step is a call
into the cluster whose success is environment-determined, so a pass is
embedded as a function of the eight step outcomes (none = success,
some e = the error message e).  On the first failure Reconcile records one
condition (type Applied, status false, a step-specific reason, the wrapped
error message) and returns the error; on full success it records the
Applied=true condition and requests a one hour requeue. -/

/-- The eight sync steps of a convergence pass, in source order. -/
inductive StepKind
  | mtls
  | configMap
  | httpService
  | grpcService
  | serviceAccount
  | clusterRoleBinding
  | deployment
  | ingress
deriving DecidableEq

/-- Source order of the steps (Reconcile, lines 117 to 237). -/
def stepOrder : List StepKind :=
  [.mtls, .configMap, .httpService, .grpcService, .serviceAccount,
   .clusterRoleBinding, .deployment, .ingress]

/-- Outcome of each sync step for one pass: none is success, some e is the
error message the step returned. -/
structure StepOutcomes where
  mtls : Option String
  configMap : Option String
  httpService : Option String
  grpcService : Option String
  serviceAccount : Option String
  clusterRoleBinding : Option String
  deployment : Option String
  ingress : Option String
deriving DecidableEq

/-- The step-specific reason code recorded on that step failing
(Reconcile, the eight error branches). -/
def failureReason : StepKind → String
  | .mtls => "ConfigMTLSSecretFailed"
  | .configMap => "ConfigMapFailed"
  | .httpService => "ConfigHTTPServiceFailed"
  | .grpcService => "ConfigGRPCServiceFailed"
  | .serviceAccount => "ConfigServiceAccountFailed"
  | .clusterRoleBinding => "ConfigClusterRoleBindingFailed"
  | .deployment => "ConfigDeploymentFailed"
  | .ingress => "ConfigIngressFailed"

/-- The wrapped error message recorded on that step failing
(the fmt.Sprintf calls in the eight error branches). -/
def failureMessage : StepKind → String → String
  | .mtls, e => "failed to configure MTLS secret. error: " ++ e
  | .configMap, e => "failed to sync ConfigMap. error: " ++ e
  | .httpService, e => "failed to sync http service. error: " ++ e
  | .grpcService, e => "failed to sync grpc service. error: " ++ e
  | .serviceAccount, e => "failed to sync ServiceAccount. error: " ++ e
  | .clusterRoleBinding, e => "failed to sync ClusterRoleBinding. error: " ++ e
  | .deployment, e => "failed to sync Deployment. error: " ++ e
  | .ingress, e => "failed to sync Ingress. error: " ++ e

/-- Result of one convergence pass: the steps that were executed (in
order), the condition recorded via updateDexServerStatusConditions, the
requeue request of the returned ctrl.Result, and the returned error. -/
structure ReconcileResult where
  executed : List StepKind
  recorded : List Condition
  requeue : Bool
  requeueAfterSeconds : Nat
  err : Option String
deriving DecidableEq

/-- Result of a pass aborted at step k with error e: ctrl.Result is empty
(no requeue), the recorded condition carries the step reason and wrapped
message, and the error is returned. -/
def failResult (executed : List StepKind) (k : StepKind) (e : String) : ReconcileResult :=
  { executed := executed
  , recorded := [{ type := "Applied", status := false, reason := failureReason k
                 , message := failureMessage k e, lastTransitionTime := 0 }]
  , requeue := false
  , requeueAfterSeconds := 0
  , err := some e }

/-- Reconcile (lines 103 to 250): the eight steps in source order, each
gated on the previous step succeeding; first failure aborts the pass with
its condition; full success records Applied=true and requeues after one
hour (3600 seconds). -/
def reconcile (o : StepOutcomes) : ReconcileResult :=
  match o.mtls with
  | some e => failResult [.mtls] .mtls e
  | none =>
  match o.configMap with
  | some e => failResult [.mtls, .configMap] .configMap e
  | none =>
  match o.httpService with
  | some e => failResult [.mtls, .configMap, .httpService] .httpService e
  | none =>
  match o.grpcService with
  | some e => failResult [.mtls, .configMap, .httpService, .grpcService] .grpcService e
  | none =>
  match o.serviceAccount with
  | some e => failResult [.mtls, .configMap, .httpService, .grpcService, .serviceAccount] .serviceAccount e
  | none =>
  match o.clusterRoleBinding with
  | some e => failResult [.mtls, .configMap, .httpService, .grpcService, .serviceAccount, .clusterRoleBinding] .clusterRoleBinding e
  | none =>
  match o.deployment with
  | some e => failResult [.mtls, .configMap, .httpService, .grpcService, .serviceAccount, .clusterRoleBinding, .deployment] .deployment e
  | none =>
  match o.ingress with
  | some e => failResult stepOrder .ingress e
  | none =>
    { executed := stepOrder
    , recorded := [{ type := "Applied", status := true, reason := "Applied"
                   , message := "DexServer is applied", lastTransitionTime := 0 }]
    , requeue := true
    , requeueAfterSeconds := 3600
    , err := none }

/-- The step outcomes as a list, in source order. -/
def outcomesList (o : StepOutcomes) : List (Option String) :=
  [o.mtls, o.configMap, o.httpService, o.grpcService, o.serviceAccount,
   o.clusterRoleBinding, o.deployment, o.ingress]

/-- Index and error message of the first failing step, if any. -/
def firstFailAux : List (Option String) → Option (Nat × String)
  | [] => none
  | none :: rest => (firstFailAux rest).map (fun p => (p.1 + 1, p.2))
  | some e :: _ => some (0, e)

/-- Index and error message of the first failing step of a pass, if any. -/
def firstFail (o : StepOutcomes) : Option (Nat × String) :=
  firstFailAux (outcomesList o)

/-! ## Cluster lookups

A client.Get call either finds the object, fails with a not-found error
(kubeerrors.IsNotFound), or fails with any other error (transport, auth,
conflict). -/

/-- Result of a client.Get call for an object of payload type a. -/
inductive Lookup (a : Type)
  | found (x : a)
  | notFound
  | otherErr (msg : String)
deriving DecidableEq

/-- Go map indexing with the zero-value default: resource.Data and
metadata maps yield the empty string for a missing key. -/
def dataGet (d : List (String × String)) (k : String) : String :=
  match d.find? (fun p => p.1 = k) with
  | some p => p.2
  | none => ""

/-- Go comma-ok map indexing: some value when the key is present. -/
def dataFind (d : List (String × String)) (k : String) : Option String :=
  (d.find? (fun p => p.1 = k)).map (fun p => p.2)

/-! ## Connector credential extraction (lines 268 to 309) -/

/-- The connector type tag; other covers any unknown tag (the default
branch of the type switch). -/
inductive ConnectorType
  | github
  | microsoft
  | ldap
  | other
deriving DecidableEq

/-- getConnectorSecretFromRef (lines 268 to 309).  For each known type the
referenced secret is looked up; the lookup error is returned only when it
is a not-found error (err is non-nil AND IsNotFound); on any other lookup
failure the branch falls through with the zero-valued Secret, whose Data
yields the empty string.  An unknown type is an error. -/
def getConnectorSecretFromRef (t : ConnectorType) (lookup : Lookup (List (String × String))) : Except String String :=
  match t with
  | .github =>
    match lookup with
    | .notFound => .error "not found"
    | .otherErr _ => .ok (dataGet [] "clientSecret")
    | .found d => .ok (dataGet d "clientSecret")
  | .microsoft =>
    match lookup with
    | .notFound => .error "not found"
    | .otherErr _ => .ok (dataGet [] "clientSecret")
    | .found d => .ok (dataGet d "clientSecret")
  | .ldap =>
    match lookup with
    | .notFound => .error "not found"
    | .otherErr _ => .ok (dataGet [] "bindPW")
    | .found d => .ok (dataGet d "bindPW")
  | .other => .error "could not retrieve secret"

/-- syncConfigMap (lines 686 to 865) specialised to a DexServer with one
GitHub connector.  secretLookup is the Get of the referenced credential
secret; applyOk is whether the final ApplyDirectly of the rendered config
map succeeds.  Note the source error branch (lines 701 to 704): when
getConnectorSecretFromRef returns an error the function logs it and
returns nil, so the step reports success. -/
def syncConfigMapGitHub (secretLookup : Lookup (List (String × String))) (applyOk : Bool) : Option String :=
  match getConnectorSecretFromRef .github secretLookup with
  | .error _ => none
  | .ok _ => if applyOk then none else some "apply failed"

/-! ## Mutual-TLS credential lifecycle (lines 312 to 400) -/

/-- Source constant SECRET_MTLS_NAME (line 59). -/
def SECRET_MTLS_NAME : String := "grpc-mtls"

/-- Source constant MTLS_CERT_EXPIRY_ANNOTATION (line 64), the key of the
expiry annotation on the mTLS secret. -/
def MTLS_CERT_EXPIRY_ANNOT : String := "auth.identitatem.io/expiry"

/-- What manageMTLSSecret decides to do to the mTLS secret. -/
inductive MTLSAction
  | createNew
  | updateInPlace
  | noop
deriving DecidableEq

/-- manageMTLSSecret (lines 347 to 400).  The lookup payload is the value
of the expiry annotation on the found secret (the Go map read yields the
empty string when the annotation is missing).  parseRFC3339 models
time.Parse with RFC3339 (Go standard library, external to src/):
none when parsing fails.  inCertRenewalWindow is the renewal-window test
(its definition is not under src/; it is kept abstract).  Decision table
of the source: not found creates; annotation empty or unparseable or
inside the window regenerates and updates in place (on a parse error the
source sets regenerate before also consulting the window on the zero
time, so regenerate stays true regardless of the window); otherwise no
write. -/
def manageMTLSSecret (lookup : Lookup String) (parseRFC3339 : String → Option Nat)
    (inCertRenewalWindow : Nat → Bool) : Except String MTLSAction :=
  match lookup with
  | .otherErr m => .error ("error getting mtls secret: " ++ m)
  | .notFound => .ok .createNew
  | .found expiryValue =>
    let regenerate :=
      if expiryValue = "" then true
      else
        match parseRFC3339 expiryValue with
        | none => true
        | some t => inCertRenewalWindow t
    if regenerate then .ok .updateInPlace else .ok .noop

/-- The PEM-encoded pieces produced by generateMTLSCerts, plus the server
certificate expiry instant (a bare timestamp). -/
structure MTLSCerts where
  caPEM : List (Fin 256)
  caPrivKeyPEM : List (Fin 256)
  certPEM : List (Fin 256)
  certPrivKeyPEM : List (Fin 256)
  clientPEM : List (Fin 256)
  clientPrivKeyPEM : List (Fin 256)
  expiry : Nat
deriving DecidableEq

/-- The observable parts of a built corev1.Secret: name, metadata
annotations and binary data. -/
structure SecretSpec where
  name : String
  annots : List (String × String)
  data : List (String × List (Fin 256))
deriving DecidableEq

/-- Binary data map read with the Go zero-value default. -/
def bytesGet (d : List (String × List (Fin 256))) (k : String) : List (Fin 256) :=
  match d.find? (fun p => p.1 = k) with
  | some p => p.2
  | none => []

/-- defineMTLSSecret (lines 312 to 337).  formatRFC3339UTC models the Go
expression expiry.UTC().Format(time.RFC3339) (standard library, external
to src/).  Note the source appends certPEM to itself for tls.crt and
clientPEM to itself for client.crt. -/
def defineMTLSSecret (certs : MTLSCerts) (formatRFC3339UTC : Nat → String) : SecretSpec :=
  { name := SECRET_MTLS_NAME
  , annots := [(MTLS_CERT_EXPIRY_ANNOT, formatRFC3339UTC certs.expiry)]
  , data :=
      [ ("ca.crt", certs.caPEM)
      , ("ca.key", certs.caPrivKeyPEM)
      , ("tls.crt", certs.certPEM ++ certs.certPEM)
      , ("tls.key", certs.certPrivKeyPEM)
      , ("client.crt", certs.clientPEM ++ certs.clientPEM)
      , ("client.key", certs.clientPrivKeyPEM) ] }

/-! ## Deployment sync and the drift fingerprint (lines 457 to 578)

syncDeployment serialises the config map (json.Marshal), hashes it
(crypto/sha256) and hex-formats the sum.  sha256 and the serialiser are
Go standard library, external to src/. -/

/-- Lowercase hex digit of n (the fmt %x alphabet): 0 to 9 then a to f. -/
def hexChar (n : Nat) : Char :=
  Char.ofNat (if n < 10 then 48 + n else 87 + n)

/-- The two hex digits of one byte, high nibble first. -/
def byteHex (b : Fin 256) : List Char :=
  [hexChar (b.val / 16), hexChar (b.val % 16)]

/-- Lowercase hex rendering of a byte string, as produced by
fmt.Sprintf with %x. -/
def hexDigest (bs : List (Fin 256)) : String :=
  String.mk ((bs.map byteHex).flatten)

/-- Modelled from the spec: the drift fingerprint of the serialised
config resource.  The source computes the hex form of the sha256 sum of
the serialised bytes; crypto/sha256 is a standard-library external not
under src/.  Spec section 4.4 gives the fingerprint contract, that the
digest is content-determined and that the annotation differs whenever
configuration content differs, so the digest is modelled as the injective
hex expansion of the content bytes. -/
def configMapFingerprint (serialized : List (Fin 256)) : String :=
  hexDigest serialized

/-- Source constant DEX_IMAGE_ENV_NAME (line 63). -/
def DEX_IMAGE_ENV_NAME : String := "RELATED_IMAGE_DEX"

/-- getDexImagePullSpec (lines 457 to 463): env is the value of the
RELATED_IMAGE_DEX environment variable (os.Getenv yields the empty string
when it is unset). -/
def getDexImagePullSpec (env : String) : Except String String :=
  if env.length = 0 then
    .error ("required environment variable " ++ DEX_IMAGE_ENV_NAME ++ " is empty or not set")
  else .ok env

/-- The template values of syncDeployment that feed the pod-template
annotations of deploy/dex-server/deployment.yaml. -/
structure DeploymentValues where
  dexImage : String
  dexConfigMapHash : String
  mtlsSecretExpiry : String
deriving DecidableEq

/-- Tail of syncDeployment after the image and the config map hash are
settled: reads the mTLS secret expiry annotation; not-found leaves the
value empty, any other error aborts. -/
def syncDeploymentFinish (dexImage : String) (hash : String) (mtlsLookup : Lookup String) : Except String DeploymentValues :=
  match mtlsLookup with
  | .otherErr m => .error ("error getting dex server grpc mtls secret: " ++ m)
  | .notFound => .ok { dexImage := dexImage, dexConfigMapHash := hash, mtlsSecretExpiry := "" }
  | .found expiryValue => .ok { dexImage := dexImage, dexConfigMapHash := hash, mtlsSecretExpiry := expiryValue }

/-- syncDeployment (lines 466 to 578), reduced to the template values it
computes.  The image gate runs first (any error is returned before any
other work).  cmLookup is the Get of the dex config map, with its payload
already serialised to bytes; when it is not found the hash value stays
empty, when found the hash is the content fingerprint, any other error
aborts the step. -/
def syncDeployment (env : String) (cmLookup : Lookup (List (Fin 256))) (mtlsLookup : Lookup String) : Except String DeploymentValues :=
  match getDexImagePullSpec env with
  | .error e => .error e
  | .ok dexImage =>
    match cmLookup with
    | .otherErr m => .error m
    | .notFound => syncDeploymentFinish dexImage "" mtlsLookup
    | .found serialized => syncDeploymentFinish dexImage (configMapFingerprint serialized) mtlsLookup

/-- The pod-template annotations rendered by
deploy/dex-server/deployment.yaml (lines 14 to 21): each annotation is
emitted only when its value is non-empty (Go template truthiness of a
string). -/
def podTemplateAnnots (v : DeploymentValues) : List (String × String) :=
  (if v.dexConfigMapHash = "" then []
   else [("auth.identitatem.io/configHash", v.dexConfigMapHash)])
  ++ (if v.mtlsSecretExpiry = "" then []
      else [("auth.identitatem.io/grpcMtlsExpiry", v.mtlsSecretExpiry)])

/-! ## The deployment restart-suppression predicate (lines 903 to 944) -/

/-- The pod-template restart annotation key stamped by rolling restarts. -/
def RESTARTED_AT_KEY : String := "kubectl.kubernetes.io/restartedAt"

/-- One update event on a watched deployment, as seen by the predicate:
owner kinds of the old object, identity and generation of the new object,
and the pod-template annotations of both. -/
structure DeploymentUpdateEvent where
  oldOwnerKinds : List String
  ns : String
  name : String
  newGeneration : Int
  oldPodAnnots : List (String × String)
  newPodAnnots : List (String × String)
deriving DecidableEq

/-- The namespace:name key of the restartsInProgress map. -/
def eventKey (e : DeploymentUpdateEvent) : String :=
  e.ns ++ ":" ++ e.name

/-- Go map read of the restartsInProgress map. -/
def restartsLookup (m : List (String × Int)) (k : String) : Option Int :=
  (m.find? (fun p => p.1 = k)).map (fun p => p.2)

/-- Go delete on the restartsInProgress map. -/
def restartsErase (m : List (String × Int)) (k : String) : List (String × Int) :=
  m.filter (fun p => ¬ p.1 = k)

/-- Go map assignment on the restartsInProgress map. -/
def restartsInsert (m : List (String × Int)) (k : String) (v : Int) : List (String × Int) :=
  restartsErase m k ++ [(k, v)]

/-- Second half of the predicate body (lines 925 to 941): if the new pod
template carries the restart annotation and its value differs from the
old one (or the old annotations are empty), this is a new restart: record
the generation and suppress; otherwise admit. -/
def restartCheck (m : List (String × Int)) (key : String) (e : DeploymentUpdateEvent) : Bool × List (String × Int) :=
  match dataFind e.newPodAnnots RESTARTED_AT_KEY with
  | some newRestartedAt =>
    if e.oldPodAnnots.length = 0 ∨ newRestartedAt ≠ dataGet e.oldPodAnnots RESTARTED_AT_KEY
    then (false, restartsInsert m key e.newGeneration)
    else (true, m)
  | none => (true, m)

/-- The UpdateFunc of ignoreDeploymentRestartPredicate (lines 903 to
944), as a step on the process-lifetime restartsInProgress state: returns
whether the event is admitted and the new state.  Events whose old object
has no owner references, or whose first owner kind is not DexServer, are
rejected up front.  A recorded in-progress generation equal to the event
generation suppresses; a different recorded generation is deleted and the
event falls through to the restart check. -/
def ignoreDeploymentRestartUpdate (m : List (String × Int)) (e : DeploymentUpdateEvent) : Bool × List (String × Int) :=
  match e.oldOwnerKinds with
  | [] => (false, m)
  | k0 :: _ =>
    if k0 = "DexServer" then
      match restartsLookup m (eventKey e) with
      | some g =>
        if g = e.newGeneration then (false, m)
        else restartCheck (restartsErase m (eventKey e)) (eventKey e) e
      | none => restartCheck m (eventKey e) e
    else (false, m)

/-! ## Concrete fixtures used to evaluate the definitions -/

/-- A concrete RFC3339 parser fixture: "near" parses to 5, "far" parses
to 100, anything else fails to parse. -/
def parseFixture : String → Option Nat :=
  fun s => if s = "near" then some 5 else if s = "far" then some 100 else none

/-- A concrete renewal-window fixture: instants below 10 are inside the
window. -/
def windowFixture : Nat → Bool :=
  fun t => decide (t < 10)

/-- A pass in which every step succeeds. -/
def allSuccessOutcomes : StepOutcomes :=
  { mtls := none, configMap := none, httpService := none, grpcService := none
  , serviceAccount := none, clusterRoleBinding := none, deployment := none, ingress := none }

/-- A pass in which the config map step fails and every other step
succeeds. -/
def c2FailOutcomes : StepOutcomes :=
  { mtls := none, configMap := some "boom", httpService := none, grpcService := none
  , serviceAccount := none, clusterRoleBinding := none, deployment := none, ingress := none }

/-- The pass of the end-to-end failure scenario: the GitHub connector
credential secret does not exist, and every other step succeeds.  The
config map step outcome is computed by syncConfigMapGitHub on the
not-found lookup. -/
def missingSecretOutcomes : StepOutcomes :=
  { mtls := none, configMap := syncConfigMapGitHub Lookup.notFound true
  , httpService := none, grpcService := none, serviceAccount := none
  , clusterRoleBinding := none, deployment := none, ingress := none }

/-- Restart-tracking state with one in-progress restart at generation 1. -/
def c5State : List (String × Int) := [("ns1:dex1", 1)]

/-- An update event at generation 2 whose restart timestamp differs from
the previous event's value (a fresh restart arriving while generation 1
is recorded). -/
def c5FreshRestartEvent : DeploymentUpdateEvent :=
  { oldOwnerKinds := ["DexServer"], ns := "ns1", name := "dex1", newGeneration := 2
  , oldPodAnnots := [("kubectl.kubernetes.io/restartedAt", "2021-01-01T00:00:00Z")]
  , newPodAnnots := [("kubectl.kubernetes.io/restartedAt", "2021-01-02T00:00:00Z")] }

/-- An update event at generation 2 whose restart timestamp equals the
previous event's value (the restart churn has settled). -/
def c5SettledEvent : DeploymentUpdateEvent :=
  { oldOwnerKinds := ["DexServer"], ns := "ns1", name := "dex1", newGeneration := 2
  , oldPodAnnots := [("kubectl.kubernetes.io/restartedAt", "2021-01-02T00:00:00Z")]
  , newPodAnnots := [("kubectl.kubernetes.io/restartedAt", "2021-01-02T00:00:00Z")] }

/-- A one-byte serialised config map content fixture. -/
def cmBytesFixture : List (Fin 256) := [0]

/-! ## Claim C10: layout of the mTLS credential bundle secret -/

/-- C10: in the credential bundle secret produced by defineMTLSSecret the
data keys tls.crt and client.crt each hold the corresponding certificate
PEM concatenated with itself, ca.crt, ca.key, tls.key and client.key hold
a single PEM block, and the expiry annotation is the expiry time under
the RFC3339 UTC formatter. -/
theorem c10_defineMTLSSecret_layout (certs : MTLSCerts) (formatRFC3339UTC : Nat → String) :
    bytesGet (defineMTLSSecret certs formatRFC3339UTC).data "tls.crt" = certs.certPEM ++ certs.certPEM
  ∧ bytesGet (defineMTLSSecret certs formatRFC3339UTC).data "client.crt" = certs.clientPEM ++ certs.clientPEM
  ∧ bytesGet (defineMTLSSecret certs formatRFC3339UTC).data "ca.crt" = certs.caPEM
  ∧ bytesGet (defineMTLSSecret certs formatRFC3339UTC).data "ca.key" = certs.caPrivKeyPEM
  ∧ bytesGet (defineMTLSSecret certs formatRFC3339UTC).data "tls.key" = certs.certPrivKeyPEM
  ∧ bytesGet (defineMTLSSecret certs formatRFC3339UTC).data "client.key" = certs.clientPrivKeyPEM
  ∧ dataGet (defineMTLSSecret certs formatRFC3339UTC).annots MTLS_CERT_EXPIRY_ANNOT = formatRFC3339UTC certs.expiry :=
  ⟨rfl, rfl, rfl, rfl, rfl, rfl, rfl⟩

/-! ## Claim C8: missing image reference fails fast -/

/-- C8: when the RELATED_IMAGE_DEX environment value is empty or not set
(os.Getenv yields the empty string either way), getDexImagePullSpec
returns the descriptive error naming the variable, and syncDeployment
returns that error before doing anything else, whatever the cluster
lookups would have produced. -/
theorem c8_missing_image_fails_fast (env : String) (h : env.length = 0) :
    getDexImagePullSpec env =
      Except.error ("required environment variable " ++ DEX_IMAGE_ENV_NAME ++ " is empty or not set")
  ∧ ∀ (cmLookup : Lookup (List (Fin 256))) (mtlsLookup : Lookup String),
      syncDeployment env cmLookup mtlsLookup =
        Except.error ("required environment variable " ++ DEX_IMAGE_ENV_NAME ++ " is empty or not set") := by
  have hg : getDexImagePullSpec env =
      Except.error ("required environment variable " ++ DEX_IMAGE_ENV_NAME ++ " is empty or not set") := by
    simp [getDexImagePullSpec, h]
  exact ⟨hg, fun cmLookup mtlsLookup => by simp [syncDeployment, hg]⟩

/-- Witness for C8 at the empty environment value. -/
theorem c8_witness :
    getDexImagePullSpec "" =
      Except.error ("required environment variable " ++ DEX_IMAGE_ENV_NAME ++ " is empty or not set") :=
  (c8_missing_image_fails_fast "" rfl).1

/-! ## Claim C9: connector credential lookup error behaviour -/

/-- C9: for every connector of a known type, getConnectorSecretFromRef
returns an error exactly when the secret lookup fails with a not-found
error; on any other lookup failure the error is discarded and the empty
credential string is returned without an error. -/
theorem c9_connector_secret_error_behavior (t : ConnectorType) (ht : t ≠ ConnectorType.other)
    (lookup : Lookup (List (String × String))) :
    ((∃ e, getConnectorSecretFromRef t lookup = Except.error e) ↔ lookup = Lookup.notFound)
  ∧ (∀ m, lookup = Lookup.otherErr m → getConnectorSecretFromRef t lookup = Except.ok "") := by
  cases t with
  | other => exact absurd rfl ht
  | github => cases lookup <;> simp [getConnectorSecretFromRef, dataGet]
  | microsoft => cases lookup <;> simp [getConnectorSecretFromRef, dataGet]
  | ldap => cases lookup <;> simp [getConnectorSecretFromRef, dataGet]

/-- Witness for C9: a GitHub connector whose secret is missing yields an
error; an LDAP connector whose lookup fails with a transport error yields
the empty bind password and no error. -/
theorem c9_witness :
    (∃ e, getConnectorSecretFromRef ConnectorType.github Lookup.notFound = Except.error e)
  ∧ getConnectorSecretFromRef ConnectorType.ldap (Lookup.otherErr "transport") = Except.ok "" :=
  ⟨((c9_connector_secret_error_behavior ConnectorType.github (by decide) Lookup.notFound).1).mpr rfl,
   (c9_connector_secret_error_behavior ConnectorType.ldap (by decide) (Lookup.otherErr "transport")).2
     "transport" rfl⟩

/-! ## Claim C3: mTLS credential bundle lifecycle decisions -/

/-- C3: manageMTLSSecret creates a fresh bundle when none is found;
regenerates and updates in place when the expiry annotation is missing
(empty) or fails to parse, regardless of any renewal window; regenerates
and updates in place when the annotation parses and the current time is
inside the renewal window; and performs no write otherwise. -/
theorem c3_manageMTLSSecret_cases (parse : String → Option Nat) (window : Nat → Bool) (v : String) :
    manageMTLSSecret Lookup.notFound parse window = Except.ok MTLSAction.createNew
  ∧ (v = "" → manageMTLSSecret (Lookup.found v) parse window = Except.ok MTLSAction.updateInPlace)
  ∧ (parse v = none → manageMTLSSecret (Lookup.found v) parse window = Except.ok MTLSAction.updateInPlace)
  ∧ (∀ t, parse v = some t → window t = true →
      manageMTLSSecret (Lookup.found v) parse window = Except.ok MTLSAction.updateInPlace)
  ∧ (∀ t, v ≠ "" → parse v = some t → window t = false →
      manageMTLSSecret (Lookup.found v) parse window = Except.ok MTLSAction.noop) := by
  refine ⟨rfl, ?_, ?_, ?_, ?_⟩
  · intro hv
    simp [manageMTLSSecret, hv]
  · intro hp
    by_cases hv : v = "" <;> simp [manageMTLSSecret, hp, hv]
  · intro t hp hw
    by_cases hv : v = "" <;> simp [manageMTLSSecret, hp, hw, hv]
  · intro t hv hp hw
    simp [manageMTLSSecret, hv, hp, hw]

/-- Witness for C3: with concrete parser and window fixtures, a
far-future expiry is left untouched, a near expiry is regenerated, and an
unparseable annotation is regenerated. -/
theorem c3_witness :
    manageMTLSSecret (Lookup.found "far") parseFixture windowFixture = Except.ok MTLSAction.noop
  ∧ manageMTLSSecret (Lookup.found "near") parseFixture windowFixture = Except.ok MTLSAction.updateInPlace
  ∧ manageMTLSSecret (Lookup.found "garbled") parseFixture windowFixture = Except.ok MTLSAction.updateInPlace :=
  ⟨(c3_manageMTLSSecret_cases parseFixture windowFixture "far").2.2.2.2 100 (by decide) (by decide) (by decide),
   (c3_manageMTLSSecret_cases parseFixture windowFixture "near").2.2.2.1 5 (by decide) (by decide),
   (c3_manageMTLSSecret_cases parseFixture windowFixture "garbled").2.2.1 (by decide)⟩

/-! ## Claim C7: full success records Applied=true and requeues hourly -/

/-- C7: when all eight sync steps succeed, the pass records the single
condition with type Applied, status true, reason Applied, and the
returned ctrl.Result requests a requeue one hour (3600 seconds) in the
future. -/
theorem c7_success_condition_and_requeue (o : StepOutcomes)
    (h : outcomesList o = [none, none, none, none, none, none, none, none]) :
    (reconcile o).recorded = [{ type := "Applied", status := true, reason := "Applied"
                              , message := "DexServer is applied", lastTransitionTime := 0 }]
  ∧ (reconcile o).requeue = true
  ∧ (reconcile o).requeueAfterSeconds = 3600
  ∧ (reconcile o).err = none := by
  obtain ⟨f1, f2, f3, f4, f5, f6, f7, f8⟩ := o
  simp only [outcomesList, List.cons.injEq, and_true] at h
  obtain ⟨h1, h2, h3, h4, h5, h6, h7, h8⟩ := h
  subst h1 h2 h3 h4 h5 h6 h7 h8
  exact ⟨rfl, rfl, rfl, rfl⟩

/-- Witness for C7 at the all-success pass. -/
theorem c7_witness :
    (reconcile allSuccessOutcomes).requeue = true
  ∧ (reconcile allSuccessOutcomes).requeueAfterSeconds = 3600 :=
  ⟨(c7_success_condition_and_requeue allSuccessOutcomes rfl).2.1,
   (c7_success_condition_and_requeue allSuccessOutcomes rfl).2.2.1⟩

/-! ## Claim C1: end-to-end missing-credential scenario (code bug)

The spec requires the pass to end with condition type Applied, status
false, reason ConfigMapFailed, and no deployment.  In the source,
getConnectorSecretFromRef does return the not-found error, but the error
branch of syncConfigMap (lines 701 to 704) logs it and returns nil, so
the step reports success, the ConfigMapFailed branch of Reconcile is
unreachable for this scenario, and the pass continues through the
deployment step and records Applied=true.  The theorem evaluates the
embedded code on the failing input. -/

/-- C1: on the pass whose GitHub connector credential secret does not
exist, the not-found error is produced and then swallowed by
syncConfigMap; the pass executes all eight steps (the deployment step
included), records the Applied=true condition, and records no condition
with reason ConfigMapFailed. -/
theorem c1_missing_secret_pass_eval :
    getConnectorSecretFromRef ConnectorType.github Lookup.notFound = Except.error "not found"
  ∧ syncConfigMapGitHub Lookup.notFound true = none
  ∧ (reconcile missingSecretOutcomes).executed = stepOrder
  ∧ StepKind.deployment ∈ (reconcile missingSecretOutcomes).executed
  ∧ (reconcile missingSecretOutcomes).recorded =
      [{ type := "Applied", status := true, reason := "Applied"
       , message := "DexServer is applied", lastTransitionTime := 0 }]
  ∧ ∀ c ∈ (reconcile missingSecretOutcomes).recorded, c.reason ≠ "ConfigMapFailed" := by
  refine ⟨rfl, rfl, rfl, ?_, rfl, ?_⟩ <;> decide

/-! ## Claim C2: strict step order and first-failure handling -/

/-- C2: a convergence pass runs the eight sync steps strictly in source
order, each gated on the previous step succeeding: a pass with no failing
step executes all eight steps and returns no error, and a pass whose
first failing step is at index i stops after executing exactly the first
i+1 steps, records the single condition with type Applied, status false,
that step's reason code and its wrapped error message, and returns the
step's error. -/
theorem c2_reconcile_order_and_failure (o : StepOutcomes) :
    (firstFail o = none → (reconcile o).executed = stepOrder ∧ (reconcile o).err = none)
  ∧ (∀ i e, firstFail o = some (i, e) →
      ∃ k, stepOrder[i]? = some k
        ∧ (reconcile o).executed = stepOrder.take (i + 1)
        ∧ (reconcile o).recorded =
            [{ type := "Applied", status := false, reason := failureReason k
             , message := failureMessage k e, lastTransitionTime := 0 }]
        ∧ (reconcile o).err = some e) := by
  obtain ⟨f1, f2, f3, f4, f5, f6, f7, f8⟩ := o
  cases f1 with
  | some e1 =>
    refine ⟨fun h => by simp [firstFail, outcomesList, firstFailAux] at h, fun i e h => ?_⟩
    simp only [firstFail, outcomesList, firstFailAux, Option.some.injEq, Prod.mk.injEq] at h
    obtain ⟨hi, he⟩ := h
    subst hi; subst he
    exact ⟨.mtls, rfl, rfl, rfl, rfl⟩
  | none =>
  cases f2 with
  | some e2 =>
    refine ⟨fun h => by simp [firstFail, outcomesList, firstFailAux] at h, fun i e h => ?_⟩
    simp only [firstFail, outcomesList, firstFailAux, Option.map_some', Option.some.injEq,
      Prod.mk.injEq] at h
    obtain ⟨hi, he⟩ := h
    subst hi; subst he
    exact ⟨.configMap, rfl, rfl, rfl, rfl⟩
  | none =>
  cases f3 with
  | some e3 =>
    refine ⟨fun h => by simp [firstFail, outcomesList, firstFailAux] at h, fun i e h => ?_⟩
    simp only [firstFail, outcomesList, firstFailAux, Option.map_some', Option.some.injEq,
      Prod.mk.injEq] at h
    obtain ⟨hi, he⟩ := h
    subst hi; subst he
    exact ⟨.httpService, rfl, rfl, rfl, rfl⟩
  | none =>
  cases f4 with
  | some e4 =>
    refine ⟨fun h => by simp [firstFail, outcomesList, firstFailAux] at h, fun i e h => ?_⟩
    simp only [firstFail, outcomesList, firstFailAux, Option.map_some', Option.some.injEq,
      Prod.mk.injEq] at h
    obtain ⟨hi, he⟩ := h
    subst hi; subst he
    exact ⟨.grpcService, rfl, rfl, rfl, rfl⟩
  | none =>
  cases f5 with
  | some e5 =>
    refine ⟨fun h => by simp [firstFail, outcomesList, firstFailAux] at h, fun i e h => ?_⟩
    simp only [firstFail, outcomesList, firstFailAux, Option.map_some', Option.some.injEq,
      Prod.mk.injEq] at h
    obtain ⟨hi, he⟩ := h
    subst hi; subst he
    exact ⟨.serviceAccount, rfl, rfl, rfl, rfl⟩
  | none =>
  cases f6 with
  | some e6 =>
    refine ⟨fun h => by simp [firstFail, outcomesList, firstFailAux] at h, fun i e h => ?_⟩
    simp only [firstFail, outcomesList, firstFailAux, Option.map_some', Option.some.injEq,
      Prod.mk.injEq] at h
    obtain ⟨hi, he⟩ := h
    subst hi; subst he
    exact ⟨.clusterRoleBinding, rfl, rfl, rfl, rfl⟩
  | none =>
  cases f7 with
  | some e7 =>
    refine ⟨fun h => by simp [firstFail, outcomesList, firstFailAux] at h, fun i e h => ?_⟩
    simp only [firstFail, outcomesList, firstFailAux, Option.map_some', Option.some.injEq,
      Prod.mk.injEq] at h
    obtain ⟨hi, he⟩ := h
    subst hi; subst he
    exact ⟨.deployment, rfl, rfl, rfl, rfl⟩
  | none =>
  cases f8 with
  | some e8 =>
    refine ⟨fun h => by simp [firstFail, outcomesList, firstFailAux] at h, fun i e h => ?_⟩
    simp only [firstFail, outcomesList, firstFailAux, Option.map_some', Option.some.injEq,
      Prod.mk.injEq] at h
    obtain ⟨hi, he⟩ := h
    subst hi; subst he
    exact ⟨.ingress, rfl, rfl, rfl, rfl⟩
  | none =>
    exact ⟨fun _ => ⟨rfl, rfl⟩, fun i e h => by simp [firstFail, outcomesList, firstFailAux] at h⟩

/-- Witness for C2: a pass failing at the config map step (index 1)
executes exactly the first two steps and records the ConfigMapFailed
condition. -/
theorem c2_witness :
    ∃ k, stepOrder[1]? = some k
      ∧ (reconcile c2FailOutcomes).executed = stepOrder.take (1 + 1)
      ∧ (reconcile c2FailOutcomes).recorded =
          [{ type := "Applied", status := false, reason := failureReason k
           , message := failureMessage k "boom", lastTransitionTime := 0 }]
      ∧ (reconcile c2FailOutcomes).err = some "boom" :=
  (c2_reconcile_order_and_failure c2FailOutcomes).2 1 "boom" rfl

/-! ## Claim C4: the status condition merge -/

/-- Helper: merging a condition whose type is absent appends it. -/
theorem setStatusCondition_absent (l : List Condition) (c : Condition)
    (h : ∀ y ∈ l, y.type ≠ c.type) : setStatusCondition l c = l ++ [c] := by
  induction l with
  | nil => rfl
  | cons a l ih =>
    have ha : a.type ≠ c.type := h a (List.mem_cons_self a l)
    simp only [setStatusCondition, if_neg ha, List.cons_append, List.cons.injEq, true_and]
    exact ih (fun y hy => h y (List.mem_cons_of_mem a hy))

/-- Helper: merging a condition whose type is present and whose status,
reason or message differs replaces the first record of that type in
place. -/
theorem setStatusCondition_replace (l1 l2 : List Condition) (x c : Condition)
    (hx : x.type = c.type) (h1 : ∀ y ∈ l1, y.type ≠ c.type)
    (hdiff : ¬(x.status = c.status ∧ x.reason = c.reason ∧ x.message = c.message)) :
    setStatusCondition (l1 ++ x :: l2) c = l1 ++ c :: l2 := by
  induction l1 with
  | nil => simp [setStatusCondition, hx, hdiff]
  | cons a l1 ih =>
    have ha : a.type ≠ c.type := h1 a (List.mem_cons_self a l1)
    simp only [List.cons_append, setStatusCondition, if_neg ha, List.cons.injEq, true_and]
    exact ih (fun y hy => h1 y (List.mem_cons_of_mem a hy))

/-- Helper: merging a condition whose type is present but whose status,
reason and message all agree leaves the list untouched. -/
theorem setStatusCondition_untouched (l1 l2 : List Condition) (x c : Condition)
    (hx : x.type = c.type) (h1 : ∀ y ∈ l1, y.type ≠ c.type)
    (hsame : x.status = c.status ∧ x.reason = c.reason ∧ x.message = c.message) :
    setStatusCondition (l1 ++ x :: l2) c = l1 ++ x :: l2 := by
  induction l1 with
  | nil => simp [setStatusCondition, hx, hsame]
  | cons a l1 ih =>
    have ha : a.type ≠ c.type := h1 a (List.mem_cons_self a l1)
    simp only [List.cons_append, setStatusCondition, if_neg ha, List.cons.injEq, true_and]
    exact ih (fun y hy => h1 y (List.mem_cons_of_mem a hy))

/-- Helper: a record whose type differs from the merged condition is
preserved by the per-type merge. -/
theorem mem_setStatusCondition_of_ne (l : List Condition) (c x : Condition)
    (hx : x ∈ l) (hne : x.type ≠ c.type) : x ∈ setStatusCondition l c := by
  induction l with
  | nil => cases hx
  | cons a l ih =>
    by_cases ha : a.type = c.type
    · by_cases hsame : a.status = c.status ∧ a.reason = c.reason ∧ a.message = c.message
      · simpa [setStatusCondition, ha, hsame] using hx
      · rcases List.mem_cons.mp hx with rfl | hxl
        · exact absurd ha hne
        · simp only [setStatusCondition, if_pos ha, if_neg hsame, List.mem_cons]
          exact Or.inr hxl
    · rcases List.mem_cons.mp hx with rfl | hxl
      · simp [setStatusCondition, ha]
      · simp only [setStatusCondition, if_neg ha, List.mem_cons]
        exact Or.inr (ih hxl)

/-- Helper: every condition type in the merged list came from the
existing list or is the merged condition's type. -/
theorem setStatusCondition_types_sub (l : List Condition) (c : Condition) :
    ∀ s ∈ (setStatusCondition l c).map Condition.type,
      s ∈ l.map Condition.type ∨ s = c.type := by
  induction l with
  | nil =>
    intro s hs
    simp only [setStatusCondition, List.map_cons, List.map_nil, List.mem_singleton] at hs
    exact Or.inr hs
  | cons a l ih =>
    intro s hs
    by_cases ha : a.type = c.type
    · by_cases hsame : a.status = c.status ∧ a.reason = c.reason ∧ a.message = c.message
      · simp only [setStatusCondition, if_pos ha, if_pos hsame] at hs
        exact Or.inl hs
      · simp only [setStatusCondition, if_pos ha, if_neg hsame, List.map_cons,
          List.mem_cons] at hs
        rcases hs with rfl | hs
        · exact Or.inr rfl
        · exact Or.inl (by simp only [List.map_cons, List.mem_cons]; exact Or.inr hs)
    · simp only [setStatusCondition, if_neg ha, List.map_cons, List.mem_cons] at hs
      rcases hs with rfl | hs
      · exact Or.inl (by simp)
      · rcases ih s hs with h | h
        · exact Or.inl (by simp only [List.map_cons, List.mem_cons]; exact Or.inr h)
        · exact Or.inr h

/-- Helper: the per-type merge preserves uniqueness of condition types. -/
theorem setStatusCondition_types_nodup (l : List Condition) (c : Condition)
    (h : (l.map Condition.type).Nodup) :
    ((setStatusCondition l c).map Condition.type).Nodup := by
  induction l with
  | nil => simp [setStatusCondition]
  | cons a l ih =>
    simp only [List.map_cons, List.nodup_cons] at h
    obtain ⟨hna, hnd⟩ := h
    by_cases ha : a.type = c.type
    · by_cases hsame : a.status = c.status ∧ a.reason = c.reason ∧ a.message = c.message
      · simp only [setStatusCondition, if_pos ha, if_pos hsame, List.map_cons, List.nodup_cons]
        exact ⟨hna, hnd⟩
      · simp only [setStatusCondition, if_pos ha, if_neg hsame, List.map_cons, List.nodup_cons]
        exact ⟨by rw [← ha]; exact hna, hnd⟩
    · simp only [setStatusCondition, if_neg ha, List.map_cons, List.nodup_cons]
      refine ⟨fun hmem => ?_, ih hnd⟩
      rcases setStatusCondition_types_sub l c a.type hmem with hmem2 | hmem2
      · exact hna hmem2
      · exact ha hmem2

/-- Helper: records whose type appears in none of the updates survive
the full merge. -/
theorem mergeStatusConditions_mem (l news : List Condition) (x : Condition)
    (hx : x ∈ l) (h : ∀ c ∈ news, x.type ≠ c.type) :
    x ∈ mergeStatusConditions l news := by
  induction news generalizing l with
  | nil => simpa [mergeStatusConditions] using hx
  | cons c news ih =>
    simp only [mergeStatusConditions, List.foldl_cons]
    exact ih (setStatusCondition l c)
      (mem_setStatusCondition_of_ne l c x hx (h c (List.mem_cons_self c news)))
      (fun d hd => h d (List.mem_cons_of_mem c hd))

/-- Helper: the full merge preserves uniqueness of condition types. -/
theorem mergeStatusConditions_types_nodup (l news : List Condition)
    (h : (l.map Condition.type).Nodup) :
    ((mergeStatusConditions l news).map Condition.type).Nodup := by
  induction news generalizing l with
  | nil => simpa [mergeStatusConditions] using h
  | cons c news ih =>
    simp only [mergeStatusConditions, List.foldl_cons]
    exact ih (setStatusCondition l c) (setStatusCondition_types_nodup l c h)

/-- C4: the status merge replaces an existing record of the same type in
place only when status, reason or message differs (taking the update's
last-transition time), leaves it untouched otherwise, appends updates of
absent types, preserves every existing record whose type is absent from
the updates, keeps at most one record per type when the existing list
does, and on the two concrete examples yields a single replaced A record
and the appended A plus B records respectively. -/
theorem c4_merge_status_conditions :
    (∀ (l1 l2 : List Condition) (x c : Condition), x.type = c.type →
       (∀ y ∈ l1, y.type ≠ c.type) →
       ¬(x.status = c.status ∧ x.reason = c.reason ∧ x.message = c.message) →
       setStatusCondition (l1 ++ x :: l2) c = l1 ++ c :: l2)
  ∧ (∀ (l1 l2 : List Condition) (x c : Condition), x.type = c.type →
       (∀ y ∈ l1, y.type ≠ c.type) →
       (x.status = c.status ∧ x.reason = c.reason ∧ x.message = c.message) →
       setStatusCondition (l1 ++ x :: l2) c = l1 ++ x :: l2)
  ∧ (∀ (l : List Condition) (c : Condition), (∀ y ∈ l, y.type ≠ c.type) →
       setStatusCondition l c = l ++ [c])
  ∧ (∀ (l news : List Condition) (x : Condition), x ∈ l →
       (∀ c ∈ news, x.type ≠ c.type) → x ∈ mergeStatusConditions l news)
  ∧ (∀ (l news : List Condition), (l.map Condition.type).Nodup →
       ((mergeStatusConditions l news).map Condition.type).Nodup)
  ∧ mergeStatusConditions [⟨"A", true, "", "", 0⟩] [⟨"A", false, "R", "", 7⟩] =
      [⟨"A", false, "R", "", 7⟩]
  ∧ mergeStatusConditions [⟨"A", true, "", "", 0⟩] [⟨"B", true, "", "", 7⟩] =
      [⟨"A", true, "", "", 0⟩, ⟨"B", true, "", "", 7⟩] :=
  ⟨setStatusCondition_replace, setStatusCondition_untouched, setStatusCondition_absent,
   mergeStatusConditions_mem, mergeStatusConditions_types_nodup, by decide, by decide⟩

/-- Witness for C4: replacing a stale record of the same type at a
concrete input. -/
theorem c4_witness :
    setStatusCondition ([] ++ ⟨"X", true, "", "", 0⟩ :: []) ⟨"X", false, "R", "m", 3⟩ =
      [] ++ ⟨"X", false, "R", "m", 3⟩ :: [] :=
  c4_merge_status_conditions.1 [] [] ⟨"X", true, "", "", 0⟩ ⟨"X", false, "R", "m", 3⟩
    rfl (by simp) (by decide)

/-! ## Claim C5: restart suppression (corrected)

The claim's final clause says an event carrying a generation different
from the recorded one is admitted and the record cleared.  In the source
the different generation only deletes the record; the event then falls
through to the restart-timestamp check, and when its restart timestamp
again differs from the previous value it is treated as a fresh restart:
suppressed and re-recorded at its own generation.  The counterexample
exercises exactly that input; the amended theorem states the corrected
clause. -/

/-- Helper: a Go map assignment makes the key map to the value. -/
theorem restartsLookup_insert (m : List (String × Int)) (k : String) (v : Int) :
    restartsLookup (restartsInsert m k v) k = some v := by
  induction m with
  | nil => simp [restartsInsert, restartsErase, restartsLookup]
  | cons p m ih =>
    by_cases hp : p.1 = k
    · simp [restartsInsert, restartsErase, restartsLookup, hp]
    · simp [restartsInsert, restartsErase, restartsLookup, List.find?_cons, hp]

/-- Helper: a Go map delete removes the key. -/
theorem restartsLookup_erase (m : List (String × Int)) (k : String) :
    restartsLookup (restartsErase m k) k = none := by
  induction m with
  | nil => rfl
  | cons p m ih =>
    by_cases hp : p.1 = k
    · simp [restartsErase, restartsLookup, hp]
    · simp [restartsErase, restartsLookup, List.find?_cons, hp]

/-- C5 counterexample: with generation 1 recorded as in progress, an
update event at generation 2 whose restart timestamp differs from the
previous value carries a generation different from the recorded one, yet
it is NOT admitted and the record is NOT cleared: the event is suppressed
and the map re-records generation 2. -/
theorem c5_counterexample :
    restartsLookup c5State (eventKey c5FreshRestartEvent) = some 1
  ∧ c5FreshRestartEvent.newGeneration ≠ (1 : Int)
  ∧ ¬((ignoreDeploymentRestartUpdate c5State c5FreshRestartEvent).1 = true
      ∧ restartsLookup (ignoreDeploymentRestartUpdate c5State c5FreshRestartEvent).2
          (eventKey c5FreshRestartEvent) = none)
  ∧ (ignoreDeploymentRestartUpdate c5State c5FreshRestartEvent).1 = false
  ∧ restartsLookup (ignoreDeploymentRestartUpdate c5State c5FreshRestartEvent).2
      (eventKey c5FreshRestartEvent) = some 2 := by
  decide

/-- C5 (amended): for update events on a deployment owned by a DexServer:
an event whose pod-template restart timestamp is present and differs from
the previous event's value is suppressed and its generation is recorded
as the in-progress restart generation; an event carrying the recorded
generation is suppressed with the state unchanged; and an event carrying
a generation different from the recorded one has the record cleared and
is admitted, unless its restart timestamp again differs as above (that
case falls under the first clause: suppressed and re-recorded). -/
theorem c5_restart_predicate_amended (m : List (String × Int)) (e : DeploymentUpdateEvent)
    (rest : List String) (hOwner : e.oldOwnerKinds = "DexServer" :: rest) :
    (∀ ts, dataFind e.newPodAnnots RESTARTED_AT_KEY = some ts →
       (e.oldPodAnnots.length = 0 ∨ ts ≠ dataGet e.oldPodAnnots RESTARTED_AT_KEY) →
       (ignoreDeploymentRestartUpdate m e).1 = false
       ∧ restartsLookup (ignoreDeploymentRestartUpdate m e).2 (eventKey e) =
           some e.newGeneration)
  ∧ (restartsLookup m (eventKey e) = some e.newGeneration →
       ignoreDeploymentRestartUpdate m e = (false, m))
  ∧ (∀ g, restartsLookup m (eventKey e) = some g → g ≠ e.newGeneration →
       (∀ ts, dataFind e.newPodAnnots RESTARTED_AT_KEY = some ts →
          ts = dataGet e.oldPodAnnots RESTARTED_AT_KEY ∧ e.oldPodAnnots.length ≠ 0) →
       (ignoreDeploymentRestartUpdate m e).1 = true
       ∧ restartsLookup (ignoreDeploymentRestartUpdate m e).2 (eventKey e) = none) := by
  obtain ⟨oks, ens, enm, egen, eold, enew⟩ := e
  simp only at hOwner
  subst hOwner
  refine ⟨?_, ?_, ?_⟩
  · intro ts hts hdiff
    simp only [ignoreDeploymentRestartUpdate, if_pos rfl]
    cases hlk : restartsLookup m (eventKey ⟨"DexServer" :: rest, ens, enm, egen, eold, enew⟩) with
    | none =>
      simp only [restartCheck, hts, if_pos hdiff]
      exact ⟨rfl, restartsLookup_insert _ _ _⟩
    | some g =>
      by_cases hg : g = egen
      · subst hg
        simp only [if_pos rfl]
        exact ⟨rfl, hlk⟩
      · simp only [if_neg hg, restartCheck, hts, if_pos hdiff]
        exact ⟨rfl, restartsLookup_insert _ _ _⟩
  · intro hlk
    simp [ignoreDeploymentRestartUpdate, hlk]
  · intro g hlk hg hsettle
    simp only [ignoreDeploymentRestartUpdate, if_pos rfl, hlk, if_neg hg]
    cases hts : dataFind enew RESTARTED_AT_KEY with
    | none =>
      simp only [restartCheck, hts]
      exact ⟨rfl, restartsLookup_erase _ _⟩
    | some ts =>
      obtain ⟨hts1, hts2⟩ := hsettle ts hts
      have hcond : ¬(eold.length = 0 ∨ ts ≠ dataGet eold RESTARTED_AT_KEY) := by
        push_neg
        exact ⟨hts2, hts1⟩
      simp only [restartCheck, hts, if_neg hcond]
      exact ⟨rfl, restartsLookup_erase _ _⟩

/-- Witness for C5: once the restart timestamp has settled, an event at
an unrecorded generation is admitted and the record cleared. -/
theorem c5_witness :
    (ignoreDeploymentRestartUpdate c5State c5SettledEvent).1 = true
  ∧ restartsLookup (ignoreDeploymentRestartUpdate c5State c5SettledEvent).2
      (eventKey c5SettledEvent) = none := by
  refine (c5_restart_predicate_amended c5State c5SettledEvent [] rfl).2.2 1 (by decide)
    (by decide) ?_
  intro ts hts
  have hts2 : ts = "2021-01-02T00:00:00Z" := by
    simp [c5SettledEvent, dataFind, RESTARTED_AT_KEY] at hts
    exact hts.symm
  subst hts2
  exact ⟨by decide, by decide⟩

/-! ## Claim C6: the drift fingerprint and its omission -/

/-- Helper: hex digits are distinct. -/
theorem hexChar_injOn : ∀ a b : Fin 16, hexChar a.val = hexChar b.val → a = b := by
  decide

/-- Helper: the two-digit hex rendering of a byte determines the byte. -/
theorem byteHex_inj (a b : Fin 256) (h : byteHex a = byteHex b) : a = b := by
  have ha := a.isLt
  have hb := b.isLt
  simp only [byteHex, List.cons.injEq, and_true] at h
  obtain ⟨h1, h2⟩ := h
  have hd : a.val / 16 = b.val / 16 := by
    have h3 := hexChar_injOn ⟨a.val / 16, by omega⟩ ⟨b.val / 16, by omega⟩ h1
    simpa using h3
  have hm : a.val % 16 = b.val % 16 := by
    have h3 := hexChar_injOn ⟨a.val % 16, by omega⟩ ⟨b.val % 16, by omega⟩ h2
    simpa using h3
  exact Fin.ext (by omega)

/-- Helper: the flattened hex rendering of a byte string determines the
byte string (each byte contributes exactly two characters). -/
theorem byteHexFlatten_inj :
    ∀ xs ys : List (Fin 256), (xs.map byteHex).flatten = (ys.map byteHex).flatten → xs = ys := by
  intro xs
  induction xs with
  | nil =>
    intro ys h
    cases ys with
    | nil => rfl
    | cons y ys => simp [byteHex] at h
  | cons x xs ih =>
    intro ys h
    cases ys with
    | nil => simp [byteHex] at h
    | cons y ys =>
      simp only [List.map_cons, List.flatten_cons, byteHex, List.cons_append, List.nil_append,
        List.cons.injEq] at h
      obtain ⟨h1, h2, h3⟩ := h
      have hxy : x = y := byteHex_inj x y (by simp [byteHex, h1, h2])
      rw [hxy, ih ys h3]

/-- Helper: hex rendering is injective on byte strings. -/
theorem hexDigest_inj (xs ys : List (Fin 256)) (h : hexDigest xs = hexDigest ys) : xs = ys := by
  have hdata : (xs.map byteHex).flatten = (ys.map byteHex).flatten := by
    have h2 := congrArg String.data h
    simpa [hexDigest] using h2
  exact byteHexFlatten_inj xs ys hdata

/-- Helper: the hex rendering of a non-empty byte string is non-empty. -/
theorem hexDigest_ne_empty (xs : List (Fin 256)) (h : xs ≠ []) : hexDigest xs ≠ "" := by
  cases xs with
  | nil => exact absurd rfl h
  | cons x xs =>
    intro hc
    have hdata := congrArg String.data hc
    simp [hexDigest, byteHex] at hdata

/-- C6: the drift fingerprint is a deterministic content digest of the
serialised config resource (byte-identical content gives identical
digests, different content gives different digests), and when the config
resource does not yet exist the hash value stays empty and the configHash
pod-template annotation is omitted entirely, so that the resource's later
creation changes the pod-template annotations. -/
theorem c6_fingerprint_and_omission (b1 b2 : List (Fin 256)) (env : String)
    (mtlsLookup : Lookup String) :
    (b1 = b2 → configMapFingerprint b1 = configMapFingerprint b2)
  ∧ (b1 ≠ b2 → configMapFingerprint b1 ≠ configMapFingerprint b2)
  ∧ (∀ v, syncDeployment env Lookup.notFound mtlsLookup = Except.ok v →
      v.dexConfigMapHash = ""
      ∧ "auth.identitatem.io/configHash" ∉ (podTemplateAnnots v).map Prod.fst)
  ∧ (∀ v v', b1 ≠ [] →
      syncDeployment env Lookup.notFound mtlsLookup = Except.ok v →
      syncDeployment env (Lookup.found b1) mtlsLookup = Except.ok v' →
      podTemplateAnnots v ≠ podTemplateAnnots v') := by
  refine ⟨fun h => by rw [h], fun h hc => h (hexDigest_inj b1 b2 hc), ?_, ?_⟩
  · intro v hv
    cases hg : getDexImagePullSpec env with
    | error e => simp [syncDeployment, hg] at hv
    | ok img =>
      cases mtlsLookup with
      | otherErr msg => simp [syncDeployment, hg, syncDeploymentFinish] at hv
      | notFound =>
        simp only [syncDeployment, hg, syncDeploymentFinish, Except.ok.injEq] at hv
        subst hv
        exact ⟨rfl, by simp [podTemplateAnnots]⟩
      | found expiryValue =>
        simp only [syncDeployment, hg, syncDeploymentFinish, Except.ok.injEq] at hv
        subst hv
        refine ⟨rfl, ?_⟩
        by_cases hexp : expiryValue = "" <;> simp [podTemplateAnnots, hexp]
  · intro v v' hb hv hv'
    have hfp : configMapFingerprint b1 ≠ "" := hexDigest_ne_empty b1 hb
    cases hg : getDexImagePullSpec env with
    | error e => simp [syncDeployment, hg] at hv
    | ok img =>
      cases mtlsLookup with
      | otherErr msg => simp [syncDeployment, hg, syncDeploymentFinish] at hv
      | notFound =>
        simp only [syncDeployment, hg, syncDeploymentFinish, Except.ok.injEq] at hv hv'
        subst hv; subst hv'
        simp only [podTemplateAnnots, if_pos rfl, if_neg hfp]
        intro hc
        simp at hc
      | found expiryValue =>
        simp only [syncDeployment, hg, syncDeploymentFinish, Except.ok.injEq] at hv hv'
        subst hv; subst hv'
        simp only [podTemplateAnnots, if_pos rfl, if_neg hfp]
        by_cases hexp : expiryValue = ""
        · simp only [if_pos hexp]
          intro hc
          simp at hc
        · simp only [if_neg hexp]
          intro hc
          have := congrArg (fun l => l.map Prod.fst) hc
          simp at this

/-- Witness for C6 at a one-byte serialised content: the not-found pass
omits the configHash annotation and a later creation changes the
pod-template annotations. -/
theorem c6_witness :
    podTemplateAnnots { dexImage := "img", dexConfigMapHash := "", mtlsSecretExpiry := "" } ≠
      podTemplateAnnots { dexImage := "img"
                        , dexConfigMapHash := configMapFingerprint cmBytesFixture
                        , mtlsSecretExpiry := "" } :=
  (c6_fingerprint_and_omission cmBytesFixture cmBytesFixture "img" Lookup.notFound).2.2.2
    _ _ (by decide) rfl rfl

end DexOperator
